import Mathlib

/-!
# ParkPal — shallow embedding of `src/app.py`

The application is a single script of CRUD operations over one remote table
(`parking_spots`), a geocoder wrapper, client-side filtering and a 10-second
cache.  Each Python function is translated into a pure Lean function; the
effects (network calls to the store and the geocoder) are made explicit as
`Except`-valued inputs, and time is an explicit `Nat` parameter for the cache.

Numeric columns (`price`, `lat`, `lng`) are modelled as rationals; nullable
columns as `Option`.
-/

namespace ParkPal

/-- A raw row of the `parking_spots` table as returned by the store
(`response.data`).  `lat`/`lng` are nullable; `lng` is the raw longitude
column name before the read path renames it. -/
structure Row where
  id : Nat
  owner_name : String
  address : String
  price : ℚ
  lat : Option ℚ
  lng : Option ℚ
  is_available : Bool
deriving DecidableEq, Repr

/-- A cleaned spot as used by the UI after the read path: both coordinates
present, longitude under its canonical name `lon`. -/
structure Spot where
  id : Nat
  owner_name : String
  address : String
  price : ℚ
  lat : ℚ
  lon : ℚ
  is_available : Bool
deriving DecidableEq, Repr

/-- Step (1)+(2) of `fetch_parking_spots`: `df.dropna(subset=['lat','lng'])`
followed by `df.rename(columns={'lng': 'lon'})`, per row.  A row with a
missing coordinate produces no spot. -/
def rowToSpot (r : Row) : Option Spot :=
  match r.lat, r.lng with
  | some la, some lo =>
      some { id := r.id, owner_name := r.owner_name, address := r.address,
             price := r.price, lat := la, lon := lo,
             is_available := r.is_available }
  | _, _ => none

/-- Step (3) of `fetch_parking_spots`: the Bangalore geofence
`(df.lat > 12.8) & (df.lat < 13.3) & (df.lon > 77.4) & (df.lon < 77.8)`. -/
def inGeofence (s : Spot) : Bool :=
  decide ((12.8 : ℚ) < s.lat) && decide (s.lat < (13.3 : ℚ)) &&
  decide ((77.4 : ℚ) < s.lon) && decide (s.lon < (77.8 : ℚ))

/-- The cleaning pipeline of `fetch_parking_spots` applied to the rows the
store returned: dropna + rename, then the geofence filter. -/
def cleanRows (rows : List Row) : List Spot :=
  (rows.filterMap rowToSpot).filter inGeofence

/-- Result of the repository read: the spot sequence plus whether the
`st.error` network warning was shown. -/
abbrev FetchResult := List Spot × Bool

/-- `fetch_parking_spots` (src/app.py lines 21–47).  The store read is the
`Except`-valued input: `.error msg` is the `supabase...execute()` call raising,
`.ok rows` is `response.data`.  On a raised error the function shows the
warning and returns an empty frame; on empty data it returns an empty frame;
otherwise it cleans the rows. -/
def fetch_parking_spots (resp : Except String (List Row)) : FetchResult :=
  match resp with
  | .error _ => ([], true)
  | .ok rows => if rows.isEmpty then ([], false) else (cleanRows rows, false)

/-- `startsWith needle hay`: `needle` is an initial segment of `hay`. -/
def startsWith : List Char → List Char → Bool
  | [], _ => true
  | _ :: _, [] => false
  | a :: as, b :: bs => a == b && startsWith as bs

/-- `occursIn needle hay`: `needle` occurs contiguously somewhere in `hay`. -/
def occursIn (needle : List Char) : List Char → Bool
  | [] => startsWith needle []
  | hay@(_ :: t) => startsWith needle hay || occursIn needle t

/-- The spec's search predicate, stated from the spec's words: the address
contains the search text as a case-insensitive substring.  This is the
property asserted of the filter; the code's filter instead hands the search
text to `series.str.contains(search_query, case=False)`, whose default
`regex=True` interprets it as a regular expression (see `visible_spots`). -/
def specContainsCI (hay needle : String) : Bool :=
  occursIn (needle.toList.map Char.toLower) (hay.toList.map Char.toLower)

/-- The characters Python's `re` module treats specially: a search text
containing any of them is not a plain literal pattern. -/
def regexMeta : List Char :=
  ['.', '^', '$', '*', '+', '?', '{', '}', '[', ']', '\\', '|', '(', ')']

/-- One atom of the modelled fragment of `re` with IGNORECASE: `'.'` matches
any character except a newline; a non-metacharacter matches itself
case-insensitively; the remaining metacharacters are outside the modelled
fragment (`none`). -/
def atom? (p : Char) : Option (Char → Bool) :=
  if p = '.' then some (fun c => c != '\n')
  else if p ∈ regexMeta then none
  else some (fun c => p.toLower == c.toLower)

/-- Compile a search text into its atom matchers; `none` when the text falls
outside the modelled regex fragment — such texts either use unmodelled regex
features or, like `"("`, make `re` raise in the code. -/
def patAtoms? : List Char → Option (List (Char → Bool))
  | [] => some []
  | p :: ps =>
      match atom? p, patAtoms? ps with
      | some a, some as => some (a :: as)
      | _, _ => none

/-- The atoms match at the head of the text. -/
def atomsMatchAt : List (Char → Bool) → List Char → Bool
  | [], _ => true
  | _ :: _, [] => false
  | a :: as, c :: cs => a c && atomsMatchAt as cs

/-- `re.search` over the modelled fragment: the atoms match at some position
of the text. -/
def atomsSearch (as : List (Char → Bool)) : List Char → Bool
  | [] => atomsMatchAt as []
  | hay@(_ :: t) => atomsMatchAt as hay || atomsSearch as t

/-- The Search & Filter View's `filtered_df` (src/app.py lines 133–142):
availability filter, then price ceiling, then — only when the search text is
non-empty (Python truthiness of `search_query`) —
`series.str.contains(search_query, case=False)`, which by pandas' default
`regex=True` interprets the search text as a regular expression with
IGNORECASE.  The regex engine is modelled on the fragment of literal
characters and `'.'`; the result is `none` when the search text falls
outside that fragment. -/
def visible_spots (df : List Spot) (max_price : ℚ) (search_query : String) :
    Option (List Spot) :=
  let f1 := df.filter (fun s => s.is_available)
  let f2 := f1.filter (fun s => decide (s.price ≤ max_price))
  if search_query = "" then some f2
  else
    match patAtoms? search_query.toList with
    | none => none
    | some atoms =>
        some (f2.filter (fun s => atomsSearch atoms s.address.toList))

/-! ## Geocoder client (`get_lat_lon`, src/app.py lines 49–60)

The external lookup is a function from the full query string to either a
raised error (`.error msg`, the `except:` case), a miss (`.ok none`, geopy
returning `None`, i.e. `if location:` falsy) or a hit (`.ok (some (la, lo))`).
-/

/-- One geocoder lookup outcome. -/
abbrev GeoLookup := String → Except String (Option (ℚ × ℚ))

/-- `get_lat_lon` (src/app.py lines 49–60): append `", Bangalore"`, perform a
single lookup, return the coordinate pair on a hit and `(None, None)` both on
a miss and on any raised error. -/
def get_lat_lon (geocoder : GeoLookup) (address_text : String) :
    Option ℚ × Option ℚ :=
  let full_address := address_text ++ ", Bangalore"
  match geocoder full_address with
  | .ok (some loc) => (some loc.1, some loc.2)
  | .ok none => (none, none)
  | .error _ => (none, none)

/-! ## Listing form handler (src/app.py lines 83–117) -/

/-- The fixed city-center default coordinates
(`default_lat, default_lon = 12.9716, 77.5946`). -/
def cityCenter : ℚ × ℚ := (12.9716, 77.5946)

/-- The pre-fill logic of the listing form (src/app.py lines 89–98): with a
non-empty address input (`if addr_input:`), call `get_lat_lon`; the lookup
counts as found when `found_lat` is Python-truthy, i.e. not `None` and not
`0.0` (`if found_lat:`).  Returns the pre-filled `(lat, lon)` defaults and
whether the "Location found" success message was shown.  (When `found_lat` is
present `found_lon` always is too — see `get_lat_lon_shape`.) -/
def listing_defaults (geocoder : GeoLookup) (addr_input : String) :
    (ℚ × ℚ) × Bool :=
  if addr_input = "" then (cityCenter, false)
  else
    match get_lat_lon geocoder addr_input with
    | (some la, some lo) =>
        if la = 0 then (cityCenter, false) else ((la, lo), true)
    | _ => (cityCenter, false)

/-- The payload built on `List Spot` submission (src/app.py lines 106–110).
The coordinate number inputs are pre-filled with `listing_defaults` and stay
user-editable: `editLat`/`editLon` are `some v` when the user overrode the
pre-fill with `v`, `none` when they left it untouched. -/
def listing_submit (geocoder : GeoLookup) (owner addr_input : String)
    (price : ℚ) (editLat editLon : Option ℚ) : Row :=
  let d := (listing_defaults geocoder addr_input).1
  { id := 0, owner_name := owner, address := addr_input, price := price,
    lat := some (editLat.getD d.1), lng := some (editLon.getD d.2),
    is_available := true }

/-! ## Booking handler (src/app.py lines 70–72 and 160–166) -/

/-- The store-side effect of
`supabase.table("parking_spots").update({"is_available": False}).eq("id", spot_id)`:
set `is_available := false` on every row whose id matches, unconditionally. -/
def updateUnavailable (table : List Row) (spot_id : Nat) : List Row :=
  table.map (fun r => if r.id = spot_id then { r with is_available := false }
                      else r)

/-- `book_spot` (src/app.py lines 70–72): issue the update.  `failure = some e`
models the network call raising `e`; the function body has no `try`, so the
error is returned as `.error` (uncaught at this layer). -/
def book_spot (failure : Option String) (table : List Row) (spot_id : Nat) :
    Except String (List Row) :=
  match failure with
  | some e => .error e
  | none => .ok (updateUnavailable table spot_id)

/-- The cache entry of `@st.cache_data(ttl=10)`: creation time and cached
value, or `none` when empty/cleared. -/
abbrev CacheEntry := Option (Nat × FetchResult)

/-- The `Book` button handler (src/app.py lines 160–166): call `book_spot`,
then on completion clear the `fetch_parking_spots` cache.  A raised store
error propagates (the success message and cache clear are never reached, so
the cache is left untouched inside the error). -/
def booking_click (failure : Option String) (table : List Row)
    (_cache : CacheEntry) (spot_id : Nat) :
    Except String (List Row × CacheEntry) :=
  match book_spot failure table spot_id with
  | .error e => .error e
  | .ok table2 => .ok (table2, none)

/-! ## The 10-second cache (`@st.cache_data(ttl=10)`, src/app.py line 20) -/

/-- A call to the cached `fetch_parking_spots` at time `now` (seconds): if a
cache entry exists and is younger than the 10-second TTL, return it without
touching the store; otherwise perform the store read `resp`, compute
`fetch_parking_spots resp` and cache it.  Returns the result, the new cache
entry, and whether the store was queried. -/
def cached_fetch (now : Nat) (cache : CacheEntry)
    (resp : Except String (List Row)) : FetchResult × CacheEntry × Bool :=
  match cache with
  | some (t, v) =>
      if now < t + 10 then (v, some (t, v), false)
      else
        let v2 := fetch_parking_spots resp
        (v2, some (now, v2), true)
  | none =>
      let v2 := fetch_parking_spots resp
      (v2, some (now, v2), true)

/-! ## Theorems -/

/-- Helper: a spot produced by the dropna+rename step carries exactly the
coordinates of its source row. -/
theorem rowToSpot_coords (r : Row) (s : Spot) (h : rowToSpot r = some s) :
    r.lat = some s.lat ∧ r.lng = some s.lon := by
  cases hla : r.lat with
  | none => simp [rowToSpot, hla] at h
  | some la =>
    cases hlo : r.lng with
    | none => simp [rowToSpot, hla, hlo] at h
    | some lo =>
      simp [rowToSpot, hla, hlo] at h
      subst h
      exact ⟨rfl, rfl⟩

/-- Helper: a character that is no metacharacter compiles to the
case-insensitive literal atom. -/
theorem atom_of_not_meta (p : Char) (h : p ∉ regexMeta) :
    atom? p = some (fun c => p.toLower == c.toLower) := by
  have hdot : p ≠ '.' := fun e => h (e ▸ (by decide : ('.' : Char) ∈ regexMeta))
  simp [atom?, hdot, h]

/-- Helper: a metacharacter-free search text compiles to its list of
case-insensitive literal atoms. -/
theorem patAtoms_literal (pat : List Char) (h : ∀ c ∈ pat, c ∉ regexMeta) :
    patAtoms? pat =
      some (pat.map (fun p => fun c => p.toLower == c.toLower)) := by
  induction pat with
  | nil => rfl
  | cons p ps ih =>
    simp only [patAtoms?, atom_of_not_meta p (h p (List.mem_cons_self p ps)),
      ih (fun c hc => h c (List.mem_cons_of_mem p hc)), List.map]

/-- Helper: literal atoms match at the head exactly when the lower-cased
text starts with the lower-cased search text. -/
theorem atomsMatchAt_literal (pat : List Char) :
    ∀ hay : List Char,
      atomsMatchAt (pat.map (fun p => fun c => p.toLower == c.toLower)) hay =
        startsWith (pat.map Char.toLower) (hay.map Char.toLower) := by
  induction pat with
  | nil => intro hay; cases hay <;> rfl
  | cons p ps ih =>
    intro hay
    cases hay with
    | nil => rfl
    | cons c cs => simp [atomsMatchAt, startsWith, ih]

/-- Helper: searching literal atoms is exactly case-insensitive substring
occurrence. -/
theorem atomsSearch_literal (pat : List Char) :
    ∀ hay : List Char,
      atomsSearch (pat.map (fun p => fun c => p.toLower == c.toLower)) hay =
        occursIn (pat.map Char.toLower) (hay.map Char.toLower) := by
  intro hay
  induction hay with
  | nil => exact atomsMatchAt_literal pat []
  | cons c cs ih => simp [atomsSearch, occursIn, atomsMatchAt_literal, ih]

/-- C1 counterexample: the claim's universal substring characterization is
false of the code.  With the search text ".", the filter interprets the text
as a regular expression, so the spot at "MG Road" is visible although its
address does not contain "." as a case-insensitive substring; and the search
text "(" leaves the modelled regex fragment entirely (in the code `re`
raises on it). -/
theorem C1_regex_counterexample :
    visible_spots [⟨1, "o", "MG Road", 40, 13, 77, true⟩] 100 "." =
        some [⟨1, "o", "MG Road", 40, 13, 77, true⟩] ∧
    specContainsCI "MG Road" "." = false ∧
    visible_spots [⟨1, "o", "MG Road", 40, 13, 77, true⟩] 100 "(" = none :=
  ⟨by rfl, by decide, by rfl⟩

/-- C1 (amended): for every search text built only from characters with no
special regex meaning, the Search & Filter View's visible subset is defined
and is exactly the spots that are available, within the price ceiling and —
when the search text is non-empty — whose address contains the search text
as a case-insensitive substring; moreover, on the spec's concrete examples:
with prices 40/120/40, availability true/true/false and ceiling 100 only the
first spot is visible, and the search text "indira" in any case matches only
"Indiranagar Cross", not "MG Road". -/
theorem C1_filter_view_amended :
    (∀ (df : List Spot) (p : ℚ) (q : String) (s : Spot),
        (∀ c ∈ q.toList, c ∉ regexMeta) →
        ∃ vis, visible_spots df p q = some vis ∧
          (s ∈ vis ↔ s ∈ df ∧ s.is_available = true ∧ s.price ≤ p ∧
            (q ≠ "" → specContainsCI s.address q = true))) ∧
    visible_spots
        [⟨1, "o1", "A St", 40, 12.9, 77.6, true⟩,
         ⟨2, "o2", "B St", 120, 12.9, 77.6, true⟩,
         ⟨3, "o3", "C St", 40, 12.9, 77.6, false⟩] 100 "" =
      some [⟨1, "o1", "A St", 40, 12.9, 77.6, true⟩] ∧
    visible_spots [⟨1, "o1", "Indiranagar Cross", 40, 13, 77, true⟩,
                   ⟨2, "o2", "MG Road", 40, 13, 77, true⟩] 100 "indira" =
      some [⟨1, "o1", "Indiranagar Cross", 40, 13, 77, true⟩] ∧
    visible_spots [⟨1, "o1", "Indiranagar Cross", 40, 13, 77, true⟩,
                   ⟨2, "o2", "MG Road", 40, 13, 77, true⟩] 100 "INDIRA" =
      some [⟨1, "o1", "Indiranagar Cross", 40, 13, 77, true⟩] ∧
    specContainsCI "Indiranagar Cross" "indira" = true ∧
    specContainsCI "Indiranagar Cross" "INDIRA" = true ∧
    specContainsCI "Indiranagar Cross" "InDiRa" = true ∧
    specContainsCI "MG Road" "indira" = false ∧
    specContainsCI "MG Road" "INDIRA" = false := by
  refine ⟨?_, by rfl, by rfl, by rfl, by decide, by decide, by decide,
    by decide, by decide⟩
  intro df p q s hlit
  by_cases hq : q = ""
  · subst hq
    refine ⟨_, rfl, ?_⟩
    simp [List.mem_filter]
    tauto
  · have hv : visible_spots df p q =
        some (((df.filter (fun s => s.is_available)).filter
            (fun s => decide (s.price ≤ p))).filter
          (fun s => specContainsCI s.address q)) := by
      have hpred : (fun s : Spot => atomsSearch
          (q.toList.map (fun pc => fun c => pc.toLower == c.toLower))
          s.address.toList) =
          (fun s : Spot => specContainsCI s.address q) := by
        funext a
        exact atomsSearch_literal q.toList a.address.toList
      simp only [visible_spots, if_neg hq, patAtoms_literal q.toList hlit]
      rw [hpred]
    refine ⟨_, hv, ?_⟩
    simp [List.mem_filter, hq]
    tauto

/-- C1 witness: the amended membership characterization applied at a
concrete literal search text and one-spot sequence. -/
theorem C1_filter_view_amended_witness :
    ∃ vis, visible_spots [⟨1, "o1", "Indiranagar Cross", 40, 13, 77, true⟩]
        100 "indira" = some vis ∧
      ((⟨1, "o1", "Indiranagar Cross", 40, 13, 77, true⟩ : Spot) ∈ vis ↔
        (⟨1, "o1", "Indiranagar Cross", 40, 13, 77, true⟩ : Spot) ∈
            [(⟨1, "o1", "Indiranagar Cross", 40, 13, 77, true⟩ : Spot)] ∧
          (⟨1, "o1", "Indiranagar Cross", 40, 13, 77, true⟩ :
              Spot).is_available = true ∧
          (⟨1, "o1", "Indiranagar Cross", 40, 13, 77, true⟩ : Spot).price ≤
              100 ∧
          ("indira" ≠ "" →
            specContainsCI
              (⟨1, "o1", "Indiranagar Cross", 40, 13, 77, true⟩ :
                Spot).address "indira" = true)) :=
  C1_filter_view_amended.1 _ 100 "indira" _ (by decide)

/-- C2: the repository read drops every row with a null latitude or
longitude: such a row yields no cleaned spot, and every spot in the read's
result originates from a row carrying both coordinates. -/
theorem C2_null_rows_absent :
    (∀ r : Row, r.lat = none ∨ r.lng = none → rowToSpot r = none) ∧
    (∀ (rows : List Row) (s : Spot),
        s ∈ (fetch_parking_spots (.ok rows)).1 →
        ∃ r ∈ rows, rowToSpot r = some s ∧
          r.lat = some s.lat ∧ r.lng = some s.lon) := by
  constructor
  · intro r h
    rcases h with h | h <;> simp [rowToSpot, h]
  · intro rows s hs
    by_cases he : rows.isEmpty
    · simp [fetch_parking_spots, he] at hs
    · simp only [fetch_parking_spots, he, if_neg, Bool.false_eq_true,
        ite_false] at hs
      have h1 := (List.mem_filter.mp hs).1
      rcases List.mem_filterMap.mp h1 with ⟨r, hr, hrs⟩
      exact ⟨r, hr, hrs, rowToSpot_coords r s hrs⟩

/-- C2 witness: a row with a null latitude yields no spot, and the one spot
read from a one-row table originates from that row. -/
theorem C2_null_rows_absent_witness :
    rowToSpot ⟨5, "o", "a", 10, none, some 77.5, true⟩ = none ∧
    ∃ r ∈ [(⟨1, "o", "Indiranagar", 40, some 13, some 77.5, true⟩ : Row)],
      rowToSpot r = some ⟨1, "o", "Indiranagar", 40, 13, 77.5, true⟩ ∧
        r.lat = some (13 : ℚ) ∧ r.lng = some (77.5 : ℚ) :=
  ⟨C2_null_rows_absent.1 _ (Or.inl rfl),
   C2_null_rows_absent.2 [⟨1, "o", "Indiranagar", 40, some 13, some 77.5,
     true⟩] ⟨1, "o", "Indiranagar", 40, 13, 77.5, true⟩
     (by simp [fetch_parking_spots, cleanRows, rowToSpot, inGeofence]
         norm_num)⟩

/-- C3: every spot in the repository read's result satisfies the strict
Bangalore bounding-box inequalities. -/
theorem C3_geofence (resp : Except String (List Row)) (s : Spot)
    (h : s ∈ (fetch_parking_spots resp).1) :
    (12.8 : ℚ) < s.lat ∧ s.lat < (13.3 : ℚ) ∧
      (77.4 : ℚ) < s.lon ∧ s.lon < (77.8 : ℚ) := by
  rcases resp with msg | rows
  · simp [fetch_parking_spots] at h
  · by_cases he : rows.isEmpty
    · simp [fetch_parking_spots, he] at h
    · simp only [fetch_parking_spots, he, Bool.false_eq_true, ite_false] at h
      have h2 := (List.mem_filter.mp h).2
      simp only [inGeofence, Bool.and_eq_true, decide_eq_true_eq] at h2
      exact ⟨h2.1.1.1, h2.1.1.2, h2.1.2, h2.2⟩

/-- C3 witness: the geofence bounds hold of the one spot read from a concrete
one-row table. -/
theorem C3_geofence_witness :
    (12.8 : ℚ) < 13 ∧ (13 : ℚ) < 13.3 ∧ (77.4 : ℚ) < 77.5 ∧
      (77.5 : ℚ) < 77.8 :=
  C3_geofence (.ok [⟨1, "o", "a", 40, some 13, some 77.5, true⟩])
    ⟨1, "o", "a", 40, 13, 77.5, true⟩
    (by simp [fetch_parking_spots, cleanRows, rowToSpot, inGeofence]
        norm_num)

/-- C4: booking issues the update that clears `is_available` on every row
with the matching id, with no precondition on the row's previous
availability; a raised store error is returned as-is (uncaught) by
`book_spot` and by the button handler, which then never reaches the cache
clear; and on successful completion the handler clears the repository cache
entry. -/
theorem C4_booking :
    (∀ (table : List Row) (sid : Nat) (r : Row), r ∈ table → r.id = sid →
        { r with is_available := false } ∈ updateUnavailable table sid) ∧
    (∀ (table : List Row) (sid : Nat) (r2 : Row),
        r2 ∈ updateUnavailable table sid → r2.id = sid →
        r2.is_available = false) ∧
    (∀ (table : List Row) (sid : Nat),
        book_spot none table sid = .ok (updateUnavailable table sid)) ∧
    (∀ (e : String) (table : List Row) (c : CacheEntry) (sid : Nat),
        booking_click (some e) table c sid = .error e) ∧
    (∀ (table : List Row) (c : CacheEntry) (sid : Nat),
        booking_click none table c sid =
          .ok (updateUnavailable table sid, none)) := by
  refine ⟨?_, ?_, fun _ _ => rfl, fun _ _ _ _ => rfl, fun _ _ _ => rfl⟩
  · intro table sid r hr hid
    exact List.mem_map.mpr ⟨r, hr, by simp [hid]⟩
  · intro table sid r2 h2 hid2
    rcases List.mem_map.mp h2 with ⟨r, hr, hfr⟩
    by_cases h : r.id = sid
    · rw [← hfr]
      simp [h]
    · rw [← hfr] at hid2
      simp [h] at hid2

/-- C4 witness: booking id 7 in a one-row table whose row is already
unavailable still yields the cleared row (no availability check), and a
raised store error propagates out of the button handler unchanged. -/
theorem C4_booking_witness :
    ({ id := 7, owner_name := "o", address := "a", price := 5, lat := none,
       lng := none, is_available := false } : Row) ∈
        updateUnavailable [⟨7, "o", "a", 5, none, none, false⟩] 7 ∧
    booking_click (some "network down") [] none 7 = .error "network down" :=
  ⟨C4_booking.1 [⟨7, "o", "a", 5, none, none, false⟩] 7
      ⟨7, "o", "a", 5, none, none, false⟩ (List.mem_cons_self _ _) rfl,
   C4_booking.2.2.2.1 "network down" [] none 7⟩

/-- C5: every submitted listing payload has `is_available = true`; when the
geocoder finds nothing the coordinate pre-fill is the fixed city-center
default, when it finds a truthy location the pre-fill is that result, and
the coordinate fields stay user-editable (a manual value overrides the
pre-fill) — so a geocoder failure never blocks submission, which proceeds
with those coordinates. -/
theorem C5_listing :
    (∀ (g : GeoLookup) (owner addr : String) (price : ℚ)
        (eLat eLon : Option ℚ),
        (listing_submit g owner addr price eLat eLon).is_available = true) ∧
    (∀ (g : GeoLookup) (addr : String), addr ≠ "" →
        get_lat_lon g addr = (none, none) →
        (listing_defaults g addr).1 = cityCenter) ∧
    (∀ (g : GeoLookup) (addr : String) (la lo : ℚ), addr ≠ "" →
        get_lat_lon g addr = (some la, some lo) → la ≠ 0 →
        (listing_defaults g addr).1 = (la, lo)) ∧
    (∀ (g : GeoLookup) (owner addr : String) (price : ℚ), addr ≠ "" →
        get_lat_lon g addr = (none, none) →
        listing_submit g owner addr price none none =
          { id := 0, owner_name := owner, address := addr, price := price,
            lat := some cityCenter.1, lng := some cityCenter.2,
            is_available := true }) ∧
    (∀ (g : GeoLookup) (owner addr : String) (price la lo : ℚ),
        listing_submit g owner addr price (some la) (some lo) =
          { id := 0, owner_name := owner, address := addr, price := price,
            lat := some la, lng := some lo, is_available := true }) := by
  refine ⟨fun _ _ _ _ _ _ => rfl, ?_, ?_, ?_, ?_⟩
  · intro g addr h hnone
    simp [listing_defaults, h, hnone]
  · intro g addr la lo h hfound hla
    simp [listing_defaults, h, hfound, hla]
  · intro g owner addr price h hnone
    simp [listing_submit, listing_defaults, h, hnone]
  · intro g owner addr price la lo
    simp [listing_submit]

/-- C5 witness: with a geocoder that raises, the listing for address
"Unknownplace123" pre-fills the city-center default, submits with those
coordinates, and the payload is available. -/
theorem C5_listing_witness :
    (listing_defaults (fun _ => .error "service down") "Unknownplace123").1 =
        cityCenter ∧
    listing_submit (fun _ => .error "service down") "Jo" "Unknownplace123" 50
        none none =
      { id := 0, owner_name := "Jo", address := "Unknownplace123",
        price := 50, lat := some cityCenter.1, lng := some cityCenter.2,
        is_available := true } ∧
    (listing_submit (fun _ => .error "service down") "Jo" "Unknownplace123"
        50 none none).is_available = true :=
  ⟨C5_listing.2.1 _ _ (by decide) rfl,
   C5_listing.2.2.2.1 _ "Jo" _ 50 (by decide) rfl,
   C5_listing.1 _ "Jo" _ 50 none none⟩

/-- C6: when the store read raises a connectivity error, the repository read
returns the empty sequence (not an error) with the user-visible warning
flagged, and evaluation continues normally. -/
theorem C6_network_error (msg : String) :
    fetch_parking_spots (.error msg) = ([], true) := rfl

/-- C7: the geocoder wrapper queries the single address obtained by appending
the fixed city qualifier ", Bangalore"; a raised lookup error and a reported
no-match both yield `(none, none)`, indistinguishable to the caller; and the
result depends only on that one qualified query (a single attempt, no
retry). -/
theorem C7_geocode :
    (∀ (g : GeoLookup) (a e : String),
        g (a ++ ", Bangalore") = .error e →
        get_lat_lon g a = (none, none)) ∧
    (∀ (g : GeoLookup) (a : String),
        g (a ++ ", Bangalore") = .ok none →
        get_lat_lon g a = (none, none)) ∧
    (∀ (g1 g2 : GeoLookup) (a : String),
        g1 (a ++ ", Bangalore") = g2 (a ++ ", Bangalore") →
        get_lat_lon g1 a = get_lat_lon g2 a) := by
  refine ⟨?_, ?_, ?_⟩
  · intro g a e h
    simp [get_lat_lon, h]
  · intro g a h
    simp [get_lat_lon, h]
  · intro g1 g2 a h
    simp only [get_lat_lon, h]

/-- C7 witness: a raising geocoder and a no-match geocoder both produce
`(none, none)` for "MG Road", and the agreement property applies to a
concrete pair of geocoders. -/
theorem C7_geocode_witness :
    get_lat_lon (fun _ => .error "timeout") "MG Road" = (none, none) ∧
    get_lat_lon (fun _ => .ok none) "MG Road" = (none, none) ∧
    get_lat_lon (fun _ => .ok none) "MG Road" =
      get_lat_lon (fun _ => .ok none) "MG Road" :=
  ⟨C7_geocode.1 _ _ "timeout" rfl, C7_geocode.2.1 _ _ rfl,
   C7_geocode.2.2 _ _ "MG Road" rfl⟩

/-- C8: a second cached read within 10 seconds of the first (and no
intervening cache clear) returns the first read's result — whatever the
store would answer the second time — and does not query the store. -/
theorem C8_cache_idempotent (t0 t1 : Nat)
    (resp resp2 : Except String (List Row)) (h : t1 < t0 + 10) :
    (cached_fetch t1 (cached_fetch t0 none resp).2.1 resp2).1 =
        (cached_fetch t0 none resp).1 ∧
    (cached_fetch t1 (cached_fetch t0 none resp).2.1 resp2).2.2 = false := by
  simp [cached_fetch, h]

/-- C8 witness: a read at t=0 followed by a read at t=5 — with the store now
unreachable — still returns the first result without a store query. -/
theorem C8_cache_idempotent_witness :
    (cached_fetch 5 (cached_fetch 0 none (.ok [])).2.1 (.error "down")).1 =
        (cached_fetch 0 none (.ok [])).1 ∧
    (cached_fetch 5 (cached_fetch 0 none (.ok [])).2.1 (.error "down")).2.2 =
        false :=
  C8_cache_idempotent 0 5 (.ok []) (.error "down") (by decide)

/-- C9: `get_lat_lon` returns either no coordinate at all or both
coordinates — never exactly one — so its result behaves as one optional
coordinate pair. -/
theorem C9_geocode_pair (g : GeoLookup) (a : String) :
    get_lat_lon g a = (none, none) ∨
    ∃ la lo : ℚ, get_lat_lon g a = (some la, some lo) := by
  cases hg : g (a ++ ", Bangalore") with
  | error e =>
    left
    simp [get_lat_lon, hg]
  | ok o =>
    cases o with
    | none =>
      left
      simp [get_lat_lon, hg]
    | some loc =>
      right
      exact ⟨loc.1, loc.2, by simp [get_lat_lon, hg]⟩

/-- C10: the form's found-test is Python truthiness of the latitude
(`if found_lat:`), so a geocoded hit whose latitude is exactly 0 is treated
as not found: the pre-fill is the city-center default and no success message
is shown. -/
theorem C10_zero_latitude (g : GeoLookup) (addr : String) (lo : ℚ)
    (h : addr ≠ "") (hg : g (addr ++ ", Bangalore") = .ok (some (0, lo))) :
    listing_defaults g addr = (cityCenter, false) := by
  simp [listing_defaults, h, get_lat_lon, hg]

/-- C10 witness: a geocoder hit at latitude 0 for "Lalbagh" pre-fills the
city-center default. -/
theorem C10_zero_latitude_witness :
    listing_defaults (fun _ => .ok (some (0, 77.6))) "Lalbagh" =
      (cityCenter, false) :=
  C10_zero_latitude _ "Lalbagh" 77.6 (by decide) rfl

end ParkPal
